import Mathlib

/-!
Shallow embedding of the Optics Watcher agent
(`rust/agents/watcher/src/watcher.rs`) and of the Ethereum home adapter
lookups (`rust/chains/optics-ethereum/src/home.rs`).

Modelling conventions:
* `H256` roots are modelled as `Nat`; the zero root is `0` (`H256::is_zero`).
* Chain / store errors carry no payload the watcher inspects, so they are
  modelled as `Except Unit`.
* Async channels are modelled as lists: the receiving side of the update
  channel is the list of messages a task will receive (in order), the
  sending side is the list of messages a task emitted (in order).
* A spawned task's behaviour is a function of the (finite) list of
  responses its environment hands it; `none` as a task result means the
  task is still looping when the response list runs out.
-/

namespace Optics

/-- An unsigned update record (`optics_core::Update`):
`{home_domain, previous_root, new_root}`. -/
structure Update where
  home_domain : Nat
  previous_root : Nat
  new_root : Nat
deriving DecidableEq, Repr

/-- An `Update` together with the updater's signature
(`optics_core::SignedUpdate`); the signature is opaque to the watcher and
modelled as a `Nat`. Equality is over both fields. -/
structure SignedUpdate where
  update : Update
  signature : Nat
deriving DecidableEq, Repr

/-- `optics_core::DoubleUpdate`: a pair of conflicting signed updates.
The first slot holds the earlier-persisted witness, the second the
newly received conflicting update (`DoubleUpdate(existing, signed)`). -/
structure DoubleUpdate where
  fst : SignedUpdate
  snd : SignedUpdate
deriving DecidableEq, Repr

/-- `optics_core::TxOutcome`: `{txid, executed}`. -/
structure TxOutcome where
  txid : Nat
  executed : Bool
deriving DecidableEq, Repr

/-- Result of a contract call: `Result<TxOutcome, ChainCommunicationError>`. -/
abbrev TxResult := Except Unit TxOutcome

/-- `optics_core::FailureNotification`: `{home_domain, updater}`. -/
structure FailureNotification where
  home_domain : Nat
  updater : Nat
deriving DecidableEq, Repr

/-- A `FailureNotification` signed by the watcher's own signer; the
signature is opaque and modelled as a `Nat`. -/
structure SignedFailureNotification where
  notification : FailureNotification
  signature : Nat
deriving DecidableEq, Repr

/-! ## The persistent update store

Modelled from the spec: the `HomeDB` key-value store (`optics_core::db`)
is not among the provided sources; §6 "PersistentStore interface" scopes
it to one home name and specifies `update_by_previous_root(Root)` and
`store_latest_update(&SignedUpdate)`, the latter writing under key
`previous_root`. We model the home-scoped store as an association list
from previous-root keys to signed updates; a fresh write is prepended and
lookup returns the most recent write for the key. -/

/-- Modelled from the spec: the home-scoped persistent update store
(`optics_core::db::HomeDB`), a mapping `previous_root → SignedUpdate`. -/
abbrev HomeDB := List (Nat × SignedUpdate)

/-- Modelled from the spec: `HomeDB::update_by_previous_root` — look up
the stored update whose key is the given previous root. -/
def update_by_previous_root (db : HomeDB) (root : Nat) : Option SignedUpdate :=
  (db.find? (fun p => p.1 == root)).map (fun p => p.2)

/-- Modelled from the spec: `HomeDB::store_latest_update` — persist a
signed update under its `previous_root` key. -/
def store_latest_update (db : HomeDB) (u : SignedUpdate) : HomeDB :=
  (u.update.previous_root, u) :: db

/-! ## UpdateHandler (`watcher.rs` lines 158–216) -/

/-- `UpdateHandler::check_double_update`. Mirrors the Rust body: look up
the store at the update's previous root; if an update is already stored
there with a different new root, return the `DoubleUpdate` pair
`(existing, incoming)`; if one is stored with the same new root, do
nothing; if none is stored, persist the incoming update. The second
component is the store after the call (the Rust method mutates
`self.home_db`). -/
def check_double_update (db : HomeDB) (update : SignedUpdate) :
    Except DoubleUpdate Unit × HomeDB :=
  let old_root := update.update.previous_root
  let new_root := update.update.new_root
  match update_by_previous_root db old_root with
  | some existing =>
    if existing.update.new_root ≠ new_root then
      (Except.error ⟨existing, update⟩, db)
    else
      (Except.ok (), db)
  | none =>
    (Except.ok (), store_latest_update db update)

/-- Terminal value of the spawned `UpdateHandler` task
(`JoinHandle<Result<DoubleUpdate>>`). -/
inductive HandlerResult where
  /-- `Ok(double_update)`: fraud was detected. -/
  | doubleUpdate (d : DoubleUpdate)
  /-- `bail!("Channel closed.")`: the channel closed with no detection. -/
  | channelClosed
  /-- `self.home.committed_root().await?` propagated a chain error. -/
  | chainError
deriving DecidableEq, Repr

/-- Everything observable about one run of the `UpdateHandler` loop. -/
structure HandlerOut where
  /-- the task's terminal value -/
  result : HandlerResult
  /-- the store when the task resolves -/
  db : HomeDB
  /-- the arguments of the `home.update(&update)` relay calls, in order -/
  relays : List SignedUpdate
  /-- channel messages never received by the handler -/
  unconsumed : List SignedUpdate

/-- The `UpdateHandler::spawn` loop, run over the list `msgs` of channel
messages (the channel counts as closed once the list is exhausted).
`croot i` is the home's answer to the `committed_root()` query made while
processing the `i`-th message; `relayRes i` is the outcome of the
`home.update` relay at that step, which the Rust code discards
(`let _ = self.home.update(&update).await;`). -/
def handler_run (croot : Nat → Except Unit Nat) (relayRes : Nat → TxResult)
    (i : Nat) (db : HomeDB) : List SignedUpdate → HandlerOut
  | [] => ⟨.channelClosed, db, [], []⟩
  | msg :: rest =>
    match croot i with
    | .error _ => ⟨.chainError, db, [], rest⟩
    | .ok r =>
      let relayed := if msg.update.previous_root = r then [msg] else []
      -- the relay outcome is awaited but its value is discarded
      let _ := if msg.update.previous_root = r then some (relayRes i) else none
      match check_double_update db msg with
      | (.error d, db') => ⟨.doubleUpdate d, db', relayed, rest⟩
      | (.ok _, db') =>
        let out := handler_run croot relayRes (i + 1) db' rest
        ⟨out.result, out.db, relayed ++ out.relays, out.unconsumed⟩

/-! ## ContractWatcher (`watcher.rs` lines 29–84) -/

/-- An adapter response to `signed_update_by_old_root` /
`signed_update_by_new_root`: `Result<Option<SignedUpdate>, ChainError>`. -/
abbrev AdapterResp := Except Unit (Option SignedUpdate)

/-- `ContractWatcher::poll_and_send_update`, one poll step from the
current `committed_root` given the adapter's response. Returns `.error`
when the adapter call errs (the `?` propagates it), otherwise the new
`committed_root` and the updates sent on the channel this step. Note the
root is advanced to `new_root` before the send. -/
def poll_and_send_update (committed_root : Nat) (resp : AdapterResp) :
    Except Unit (Nat × List SignedUpdate) :=
  match resp with
  | .error e => .error e
  | .ok none => .ok (committed_root, [])
  | .ok (some new_update) => .ok (new_update.update.new_root, [new_update])

/-- The `ContractWatcher::spawn` loop run over a finite list of adapter
responses: the final `committed_root` (or the first propagated error)
together with all updates emitted on the channel, in order. -/
def contract_watcher_run (committed_root : Nat) :
    List AdapterResp → Except Unit Nat × List SignedUpdate
  | [] => (.ok committed_root, [])
  | resp :: rest =>
    match poll_and_send_update committed_root resp with
    | .error e => (.error e, [])
    | .ok (root', sent) =>
      let out := contract_watcher_run root' rest
      (out.1, sent ++ out.2)

/-- The result of the spawned `ContractWatcher` task over a finite list
of adapter responses: `some (.error _)` when a poll step's error made the
task complete with `Err` via `?`; `none` while the infinite `loop` is
still polling (the loop has no normal exit). -/
def contract_watcher_spawn (committed_root : Nat) (resps : List AdapterResp) :
    Option (Except Unit Unit) :=
  match (contract_watcher_run committed_root resps).1 with
  | .error e => some (.error e)
  | .ok _ => none

/-! ## HistorySync (`watcher.rs` lines 86–156) -/

/-- The two `Err` cases `HistorySync::update_history` can produce: a
propagated adapter error (the `?` on `signed_update_by_new_root`), or
`WatcherError::SyncingFinished`. -/
inductive HistErr where
  | chainErr
  | syncingFinished
deriving DecidableEq, Repr

/-- `HistorySync::update_history`, one step from the current
`committed_root` given the adapter's response. Mirrors the Rust body:
adapter error propagates; `None` means syncing finished; on
`Some(previous_update)` the root becomes `previous_update.previous_root`,
the update is sent, and if the new root is the zero root syncing is
finished. Returns (step result, new committed root, sent updates). -/
def update_history (committed_root : Nat) (resp : AdapterResp) :
    Except HistErr Unit × Nat × List SignedUpdate :=
  match resp with
  | .error _ => (.error .chainErr, committed_root, [])
  | .ok none => (.error .syncingFinished, committed_root, [])
  | .ok (some previous_update) =>
    let root := previous_update.update.previous_root
    if root = 0 then
      (.error .syncingFinished, root, [previous_update])
    else
      (.ok (), root, [previous_update])

/-- The `HistorySync::spawn` loop run over a finite list of adapter
responses: `some e` when some step returned `Err` and the loop `break`s
(recording which error it was), `none` if the loop is still polling;
plus the final `committed_root` and all updates emitted, in order. -/
def history_sync_run (committed_root : Nat) :
    List AdapterResp → Option HistErr × Nat × List SignedUpdate
  | [] => (none, committed_root, [])
  | resp :: rest =>
    match update_history committed_root resp with
    | (.error e, root', sent) => (some e, root', sent)
    | (.ok _, root', sent) =>
      let out := history_sync_run root' rest
      (out.1, out.2.1, sent ++ out.2.2)

/-- The result of the spawned `HistorySync` task: the loop body `break`s
on ANY `Err` from `update_history` and the task then returns `Ok(())`,
so the task result is `some (.ok ())` whenever some step erred — chain
errors included — and `none` while the loop is still polling. -/
def history_sync_spawn (committed_root : Nat) (resps : List AdapterResp) :
    Option (Except Unit Unit) :=
  match (history_sync_run committed_root resps).1 with
  | some _ => some (.ok ())
  | none => none

/-! ## Ethereum home adapter lookups (`optics-ethereum/src/home.rs`
lines 279–303) -/

/-- One read of the indexer-populated database:
`Result<Option<SignedUpdate>, StoreError>` (`DbError` converts into
`ChainCommunicationError` via `?`). -/
abbrev DbRead := Except Unit (Option SignedUpdate)

/-- `EthereumHome::signed_update_by_old_root`: loop re-reading
`db.update_by_previous_root(name, old_root)` every 500 ms until it yields
a value, propagating a store error. `reads` is the sequence of successive
database read results; `none` means the loop is still retrying when the
sequence runs out. -/
def eth_signed_update_by_old_root : List DbRead → Option AdapterResp
  | [] => none
  | read :: rest =>
    match read with
    | .error e => some (.error e)
    | .ok (some update) => some (.ok (some update))
    | .ok none => eth_signed_update_by_old_root rest

/-- `EthereumHome::signed_update_by_new_root`: same retry loop over
`db.update_by_new_root(name, new_root)`. -/
def eth_signed_update_by_new_root : List DbRead → Option AdapterResp
  | [] => none
  | read :: rest =>
    match read with
    | .error e => some (.error e)
    | .ok (some update) => some (.ok (some update))
    | .ok none => eth_signed_update_by_new_root rest

/-! ## Failure fan-out (`watcher.rs` lines 264–303, `Watcher::handle_failure`) -/

/-- The environment `handle_failure` runs against: the outcome each
replica's and the home's `double_update` call would produce, the home's
`local_domain` and `updater()` answer, the watcher signer's behaviour on
the built `FailureNotification`, and each connection manager's
`unenroll_replica` behaviour. Replicas are listed in the iteration order
of `self.core.replicas.values()`. -/
structure FanoutEnv where
  replica_double_update : List TxResult
  home_double_update : TxResult
  local_domain : Nat
  updater_res : Except Unit Nat
  sign_res : FailureNotification → Except Unit SignedFailureNotification
  unenroll_replica : List (SignedFailureNotification → TxResult)

/-- Everything observable about one `handle_failure` call. -/
structure FanoutOut where
  /-- the returned vector; `none` when the call panics before returning -/
  results : Option (List TxResult)
  /-- how many `double_update` submissions were awaited -/
  double_update_calls : Nat
  /-- the argument of each awaited `unenroll_replica` call, in order -/
  unenroll_calls : List SignedFailureNotification

/-- `Watcher::handle_failure`. Mirrors the Rust body: build the
`double_update` futures (one per replica, then push the home's — futures
are lazy, nothing is submitted yet); build and sign the
`FailureNotification`, panicking via `.unwrap()` if `home.updater()`
erred and via `.expect("!sign")` if signing erred (in either case no
future has been awaited, so no call was issued); build the
`unenroll_replica` futures; await both groups with `join(join_all,
join_all)` and return the double-update results followed by the unenroll
results. -/
def handle_failure (env : FanoutEnv) : FanoutOut :=
  let double_update_futs := env.replica_double_update ++ [env.home_double_update]
  match env.updater_res with
  | .error _ => ⟨none, 0, []⟩
  | .ok updater =>
    match env.sign_res ⟨env.local_domain, updater⟩ with
    | .error _ => ⟨none, 0, []⟩
    | .ok signed_failure =>
      let unenroll_res := env.unenroll_replica.map (fun m => m signed_failure)
      ⟨some (double_update_futs ++ unenroll_res),
       double_update_futs.length,
       List.replicate env.unenroll_replica.length signed_failure⟩

/-! ## Store lemmas -/

/-- Looking up the key just written returns the written update. -/
theorem update_by_previous_root_store_self (db : HomeDB) (u : SignedUpdate) :
    update_by_previous_root (store_latest_update db u) u.update.previous_root = some u := by
  simp [update_by_previous_root, store_latest_update, List.find?]

/-- Writing one key leaves every other key's lookup unchanged. -/
theorem update_by_previous_root_store_of_ne (db : HomeDB) (u : SignedUpdate) (k : Nat)
    (h : k ≠ u.update.previous_root) :
    update_by_previous_root (store_latest_update db u) k = update_by_previous_root db k := by
  simp only [update_by_previous_root, store_latest_update, List.find?]
  have : (u.update.previous_root == k) = false := by
    simp [Ne.symm h]
  simp [this]

/-- Conflict case of `check_double_update`: an existing entry with a
different new root yields the `(existing, incoming)` pair and leaves the
store untouched. -/
theorem check_double_update_conflict (db : HomeDB) (u existing : SignedUpdate)
    (hfound : update_by_previous_root db u.update.previous_root = some existing)
    (hne : existing.update.new_root ≠ u.update.new_root) :
    check_double_update db u = (Except.error ⟨existing, u⟩, db) := by
  simp [check_double_update, hfound, hne]

/-- Duplicate case of `check_double_update`: an existing entry with the
same new root yields `Ok(())` and leaves the store untouched. -/
theorem check_double_update_dup (db : HomeDB) (u existing : SignedUpdate)
    (hfound : update_by_previous_root db u.update.previous_root = some existing)
    (heq : existing.update.new_root = u.update.new_root) :
    check_double_update db u = (Except.ok (), db) := by
  simp [check_double_update, hfound, heq]

/-- Fresh case of `check_double_update`: an absent key causes the write. -/
theorem check_double_update_fresh (db : HomeDB) (u : SignedUpdate)
    (hnone : update_by_previous_root db u.update.previous_root = none) :
    check_double_update db u = (Except.ok (), store_latest_update db u) := by
  simp [check_double_update, hnone]

/-- A single `check_double_update` call never changes the value stored
under an already-present key. -/
theorem check_double_update_preserves (db : HomeDB) (u : SignedUpdate) (k : Nat)
    (v : SignedUpdate) (h : update_by_previous_root db k = some v) :
    update_by_previous_root (check_double_update db u).2 k = some v := by
  cases hlook : update_by_previous_root db u.update.previous_root with
  | some e =>
    simp only [check_double_update, hlook]
    split <;> exact h
  | none =>
    have hk : k ≠ u.update.previous_root := by
      intro hk
      rw [hk, hlook] at h
      exact Option.noConfusion h
    simp only [check_double_update, hlook]
    rw [update_by_previous_root_store_of_ne db u k hk]
    exact h

/-- No run of the `UpdateHandler` loop ever changes the value stored
under an already-present key. -/
theorem handler_run_preserves (croot : Nat → Except Unit Nat) (relayRes : Nat → TxResult)
    (msgs : List SignedUpdate) :
    ∀ i db k v, update_by_previous_root db k = some v →
      update_by_previous_root (handler_run croot relayRes i db msgs).db k = some v := by
  induction msgs with
  | nil =>
    intro i db k v h
    simpa [handler_run] using h
  | cons msg rest ih =>
    intro i db k v h
    simp only [handler_run]
    cases hc : croot i with
    | error e => exact h
    | ok r =>
      cases hstep : check_double_update db msg with
      | mk res db' =>
        have hdb' : update_by_previous_root db' k = some v := by
          have := check_double_update_preserves db msg k v h
          rwa [hstep] at this
        cases res with
        | error d => simpa using hdb'
        | ok _ => simpa using ih (i + 1) db' k v hdb'

/-! ## Claim theorems -/

/-- C3. Store persistence is monotone under the UpdateHandler:
`check_double_update` writes to the store only when the key is absent
(when the key is present, the store comes back unchanged); once a
`SignedUpdate` is persisted under a key, no run of the handler loop ever
changes that key's stored value; and an update identical (same
`previous_root` and `new_root`) to one already persisted causes no store
mutation and no `DoubleUpdate` detection. -/
theorem update_store_monotone_and_idempotent :
    (∀ (db : HomeDB) (u existing : SignedUpdate),
      update_by_previous_root db u.update.previous_root = some existing →
      (check_double_update db u).2 = db) ∧
    (∀ (croot : Nat → Except Unit Nat) (relayRes : Nat → TxResult)
      (msgs : List SignedUpdate) (i : Nat) (db : HomeDB) (k : Nat) (v : SignedUpdate),
      update_by_previous_root db k = some v →
      update_by_previous_root (handler_run croot relayRes i db msgs).db k = some v) ∧
    (∀ (db : HomeDB) (u existing : SignedUpdate),
      update_by_previous_root db u.update.previous_root = some existing →
      existing.update.new_root = u.update.new_root →
      check_double_update db u = (Except.ok (), db)) := by
  refine ⟨?_, ?_, ?_⟩
  · intro db u existing hfound
    simp only [check_double_update, hfound]
    split <;> rfl
  · intro croot relayRes msgs i db k v h
    exact handler_run_preserves croot relayRes msgs i db k v h
  · intro db u existing hfound heq
    exact check_double_update_dup db u existing hfound heq

/-- Witness for C3 at concrete inputs: a duplicate of the persisted
update `1 → (5 → 6)` mutates nothing and detects nothing, and a handler
run over an unrelated message preserves the persisted entry. -/
theorem update_store_monotone_and_idempotent_witness :
    check_double_update [(5, ⟨⟨1, 5, 6⟩, 10⟩)] ⟨⟨1, 5, 6⟩, 11⟩ =
      (Except.ok (), [(5, ⟨⟨1, 5, 6⟩, 10⟩)]) ∧
    update_by_previous_root
      (handler_run (fun _ => .ok 0) (fun _ => .ok ⟨0, true⟩) 0
        [(5, ⟨⟨1, 5, 6⟩, 10⟩)] [⟨⟨2, 7, 8⟩, 12⟩]).db 5 = some ⟨⟨1, 5, 6⟩, 10⟩ :=
  ⟨update_store_monotone_and_idempotent.2.2 [(5, ⟨⟨1, 5, 6⟩, 10⟩)] ⟨⟨1, 5, 6⟩, 11⟩
      ⟨⟨1, 5, 6⟩, 10⟩ rfl rfl,
    update_store_monotone_and_idempotent.2.1 (fun _ => .ok 0) (fun _ => .ok ⟨0, true⟩)
      [⟨⟨2, 7, 8⟩, 12⟩] 0 [(5, ⟨⟨1, 5, 6⟩, 10⟩)] 5 ⟨⟨1, 5, 6⟩, 10⟩ rfl⟩

/-- C9. When `check_double_update` detects a conflict it performs no
store write: the call returns the `(existing, incoming)` pair with the
store unchanged, so the earlier-persisted witness remains the stored
value at that key and the newcomer is never persisted. -/
theorem check_double_update_conflict_frame :
    ∀ (db : HomeDB) (u existing : SignedUpdate),
      update_by_previous_root db u.update.previous_root = some existing →
      existing.update.new_root ≠ u.update.new_root →
      check_double_update db u = (Except.error ⟨existing, u⟩, db) ∧
      update_by_previous_root (check_double_update db u).2 u.update.previous_root =
        some existing := by
  intro db u existing hfound hne
  have h := check_double_update_conflict db u existing hfound hne
  exact ⟨h, by rw [h]; exact hfound⟩

/-- Witness for C9 at concrete inputs: the conflicting newcomer
`(5 → 7)` against the persisted `(5 → 6)` is returned as a pair and the
store still maps `5` to the original update. -/
theorem check_double_update_conflict_frame_witness :
    check_double_update [(5, ⟨⟨1, 5, 6⟩, 10⟩)] ⟨⟨1, 5, 7⟩, 11⟩ =
      (Except.error ⟨⟨⟨1, 5, 6⟩, 10⟩, ⟨⟨1, 5, 7⟩, 11⟩⟩, [(5, ⟨⟨1, 5, 6⟩, 10⟩)]) ∧
    update_by_previous_root
      (check_double_update [(5, ⟨⟨1, 5, 6⟩, 10⟩)] ⟨⟨1, 5, 7⟩, 11⟩).2 5 =
      some ⟨⟨1, 5, 6⟩, 10⟩ :=
  check_double_update_conflict_frame [(5, ⟨⟨1, 5, 6⟩, 10⟩)] ⟨⟨1, 5, 7⟩, 11⟩
    ⟨⟨1, 5, 6⟩, 10⟩ rfl (by decide)

/-- C1. Conflict detection soundness: whenever the handler processes an
update whose `previous_root` key is already stored with a different
`new_root`, the task's terminal value is `DoubleUpdate(existing,
incoming)` — earlier-persisted witness first — the store is left as it
was, and the remaining channel messages are never received. In
particular, for `u1` then `u2` with equal previous roots, different new
roots and no prior entry at that key, processing `u2` terminates the
handler with `DoubleUpdate(u1, u2)`. -/
theorem update_handler_conflict_detection_sound :
    (∀ (croot : Nat → Except Unit Nat) (relayRes : Nat → TxResult) (i : Nat)
      (db : HomeDB) (msg : SignedUpdate) (rest : List SignedUpdate)
      (existing : SignedUpdate) (r : Nat),
      croot i = .ok r →
      update_by_previous_root db msg.update.previous_root = some existing →
      existing.update.new_root ≠ msg.update.new_root →
      handler_run croot relayRes i db (msg :: rest) =
        ⟨.doubleUpdate ⟨existing, msg⟩, db,
          if msg.update.previous_root = r then [msg] else [], rest⟩) ∧
    (∀ (croot : Nat → Except Unit Nat) (relayRes : Nat → TxResult) (db : HomeDB)
      (u1 u2 : SignedUpdate) (rest : List SignedUpdate) (r0 r1 : Nat),
      croot 0 = .ok r0 → croot 1 = .ok r1 →
      u1.update.previous_root = u2.update.previous_root →
      u1.update.new_root ≠ u2.update.new_root →
      update_by_previous_root db u1.update.previous_root = none →
      (handler_run croot relayRes 0 db (u1 :: u2 :: rest)).result =
        .doubleUpdate ⟨u1, u2⟩ ∧
      (handler_run croot relayRes 0 db (u1 :: u2 :: rest)).unconsumed = rest) := by
  constructor
  · intro croot relayRes i db msg rest existing r hc hfound hne
    have hstep := check_double_update_conflict db msg existing hfound hne
    simp [handler_run, hc, hstep]
  · intro croot relayRes db u1 u2 rest r0 r1 hc0 hc1 hprev hne hnone
    have hstep1 := check_double_update_fresh db u1 hnone
    have hfound2 : update_by_previous_root (store_latest_update db u1)
        u2.update.previous_root = some u1 := by
      rw [← hprev]
      exact update_by_previous_root_store_self db u1
    have hne2 : u1.update.new_root ≠ u2.update.new_root := hne
    have hstep2 := check_double_update_conflict (store_latest_update db u1) u2 u1
      hfound2 hne2
    constructor <;> simp [handler_run, hc0, hc1, hstep1, hstep2]

/-- Witness for C1 at concrete inputs: after `(5 → 6)` then `(5 → 7)`
the handler terminates with that pair and the trailing message `(8 → 9)`
is never received. -/
theorem update_handler_conflict_detection_sound_witness :
    (handler_run (fun _ => .ok 99) (fun _ => .ok ⟨0, true⟩) 0 []
      [⟨⟨1, 5, 6⟩, 10⟩, ⟨⟨1, 5, 7⟩, 11⟩, ⟨⟨1, 8, 9⟩, 12⟩]).result =
      .doubleUpdate ⟨⟨⟨1, 5, 6⟩, 10⟩, ⟨⟨1, 5, 7⟩, 11⟩⟩ ∧
    (handler_run (fun _ => .ok 99) (fun _ => .ok ⟨0, true⟩) 0 []
      [⟨⟨1, 5, 6⟩, 10⟩, ⟨⟨1, 5, 7⟩, 11⟩, ⟨⟨1, 8, 9⟩, 12⟩]).unconsumed =
      [⟨⟨1, 8, 9⟩, 12⟩] :=
  update_handler_conflict_detection_sound.2 (fun _ => .ok 99) (fun _ => .ok ⟨0, true⟩)
    [] ⟨⟨1, 5, 6⟩, 10⟩ ⟨⟨1, 5, 7⟩, 11⟩ [⟨⟨1, 8, 9⟩, 12⟩] 99 99 rfl rfl rfl
    (by decide) rfl

/-- C7. Opportunistic relay: while processing a message the handler
relays it to the home exactly when its `previous_root` equals the home's
freshly queried committed root (one `home.update` call for such a
message, none otherwise), and the relay's outcome is discarded — the
whole run is independent of the relay results, so an error or revert
neither stops processing nor terminates the handler. -/
theorem update_handler_opportunistic_relay :
    (∀ (croot : Nat → Except Unit Nat) (relayRes relayRes' : Nat → TxResult)
      (msgs : List SignedUpdate) (i : Nat) (db : HomeDB),
      handler_run croot relayRes i db msgs = handler_run croot relayRes' i db msgs) ∧
    (∀ (croot : Nat → Except Unit Nat) (relayRes : Nat → TxResult) (i : Nat)
      (db db' : HomeDB) (msg : SignedUpdate) (rest : List SignedUpdate) (r : Nat),
      croot i = .ok r → msg.update.previous_root = r →
      check_double_update db msg = (Except.ok (), db') →
      (handler_run croot relayRes i db (msg :: rest)).relays =
        msg :: (handler_run croot relayRes (i + 1) db' rest).relays ∧
      (handler_run croot relayRes i db (msg :: rest)).result =
        (handler_run croot relayRes (i + 1) db' rest).result) ∧
    (∀ (croot : Nat → Except Unit Nat) (relayRes : Nat → TxResult) (i : Nat)
      (db db' : HomeDB) (msg : SignedUpdate) (rest : List SignedUpdate) (r : Nat)
      (d : DoubleUpdate),
      croot i = .ok r → msg.update.previous_root = r →
      check_double_update db msg = (Except.error d, db') →
      (handler_run croot relayRes i db (msg :: rest)).relays = [msg]) ∧
    (∀ (croot : Nat → Except Unit Nat) (relayRes : Nat → TxResult) (i : Nat)
      (db db' : HomeDB) (msg : SignedUpdate) (rest : List SignedUpdate) (r : Nat),
      croot i = .ok r → msg.update.previous_root ≠ r →
      check_double_update db msg = (Except.ok (), db') →
      (handler_run croot relayRes i db (msg :: rest)).relays =
        (handler_run croot relayRes (i + 1) db' rest).relays) ∧
    (∀ (croot : Nat → Except Unit Nat) (relayRes : Nat → TxResult) (i : Nat)
      (db db' : HomeDB) (msg : SignedUpdate) (rest : List SignedUpdate) (r : Nat)
      (d : DoubleUpdate),
      croot i = .ok r → msg.update.previous_root ≠ r →
      check_double_update db msg = (Except.error d, db') →
      (handler_run croot relayRes i db (msg :: rest)).relays = []) := by
  refine ⟨?_, ?_, ?_, ?_, ?_⟩
  · intro croot relayRes relayRes' msgs
    induction msgs with
    | nil => intro i db; rfl
    | cons msg rest ih =>
      intro i db
      simp only [handler_run]
      cases hc : croot i with
      | error e => rfl
      | ok r =>
        cases hstep : check_double_update db msg with
        | mk res db' =>
          cases res with
          | error d => rfl
          | ok u => simp [ih]
  · intro croot relayRes i db db' msg rest r hc hrel hstep
    constructor <;> simp [handler_run, hc, hrel, hstep]
  · intro croot relayRes i db db' msg rest r d hc hrel hstep
    simp [handler_run, hc, hrel, hstep]
  · intro croot relayRes i db db' msg rest r hc hrel hstep
    simp [handler_run, hc, hrel, hstep]
  · intro croot relayRes i db db' msg rest r d hc hrel hstep
    simp [handler_run, hc, hrel, hstep]

/-- Witness for C7 at concrete inputs: a message whose previous root
matches the home's committed root `5` is relayed once before the store
check, and the run with a failing relay equals the run with a succeeding
one. -/
theorem update_handler_opportunistic_relay_witness :
    (handler_run (fun _ => .ok 5) (fun _ => .ok ⟨0, true⟩) 0 []
        [⟨⟨1, 5, 6⟩, 10⟩]).relays =
      ⟨⟨1, 5, 6⟩, 10⟩ ::
        (handler_run (fun _ => .ok 5) (fun _ => .ok ⟨0, true⟩) 1
          [(5, ⟨⟨1, 5, 6⟩, 10⟩)] []).relays ∧
    handler_run (fun _ => .ok 5) (fun _ => .error ()) 0 [] [⟨⟨1, 5, 6⟩, 10⟩] =
      handler_run (fun _ => .ok 5) (fun _ => .ok ⟨0, true⟩) 0 [] [⟨⟨1, 5, 6⟩, 10⟩] :=
  ⟨(update_handler_opportunistic_relay.2.1 (fun _ => .ok 5) (fun _ => .ok ⟨0, true⟩)
      0 [] [(5, ⟨⟨1, 5, 6⟩, 10⟩)] ⟨⟨1, 5, 6⟩, 10⟩ [] 5 rfl rfl rfl).1,
    update_handler_opportunistic_relay.1 (fun _ => .ok 5) (fun _ => .error ())
      (fun _ => .ok ⟨0, true⟩) [⟨⟨1, 5, 6⟩, 10⟩] 0 []⟩

/-- C5. Monotone forward walk of the ContractWatcher: a `None` response
emits nothing and leaves `committed_root` unchanged; `Some(update)`
emits exactly that update once and advances `committed_root` to its
`new_root`; hence an adapter response chain `S → S' → S'' → ⊥` emits
three updates whose previous roots are `S, S', S''` in that order, the
root after each step being that update's new root. -/
theorem contract_watcher_forward_walk :
    (∀ (root : Nat), poll_and_send_update root (.ok none) = .ok (root, [])) ∧
    (∀ (root : Nat) (u : SignedUpdate),
      poll_and_send_update root (.ok (some u)) = .ok (u.update.new_root, [u])) ∧
    (∀ (S : Nat) (u1 u2 u3 : SignedUpdate),
      u1.update.previous_root = S →
      u2.update.previous_root = u1.update.new_root →
      u3.update.previous_root = u2.update.new_root →
      contract_watcher_run S [.ok (some u1)] = (.ok u1.update.new_root, [u1]) ∧
      contract_watcher_run S [.ok (some u1), .ok (some u2)] =
        (.ok u2.update.new_root, [u1, u2]) ∧
      contract_watcher_run S [.ok (some u1), .ok (some u2), .ok (some u3), .ok none] =
        (.ok u3.update.new_root, [u1, u2, u3]) ∧
      [u1, u2, u3].map (fun u => u.update.previous_root) =
        [S, u1.update.new_root, u2.update.new_root]) := by
  refine ⟨fun root => rfl, fun root u => rfl, ?_⟩
  intro S u1 u2 u3 h1 h2 h3
  refine ⟨rfl, rfl, rfl, ?_⟩
  simp [h1, h2, h3]

/-- Witness for C5 at a concrete chain `1 → 2 → 3 → 4 → ⊥`. -/
theorem contract_watcher_forward_walk_witness :
    contract_watcher_run 1 [.ok (some ⟨⟨1, 1, 2⟩, 10⟩)] = (.ok 2, [⟨⟨1, 1, 2⟩, 10⟩]) ∧
    contract_watcher_run 1 [.ok (some ⟨⟨1, 1, 2⟩, 10⟩), .ok (some ⟨⟨1, 2, 3⟩, 11⟩)] =
      (.ok 3, [⟨⟨1, 1, 2⟩, 10⟩, ⟨⟨1, 2, 3⟩, 11⟩]) ∧
    contract_watcher_run 1 [.ok (some ⟨⟨1, 1, 2⟩, 10⟩), .ok (some ⟨⟨1, 2, 3⟩, 11⟩),
        .ok (some ⟨⟨1, 3, 4⟩, 12⟩), .ok none] =
      (.ok 4, [⟨⟨1, 1, 2⟩, 10⟩, ⟨⟨1, 2, 3⟩, 11⟩, ⟨⟨1, 3, 4⟩, 12⟩]) ∧
    [(⟨⟨1, 1, 2⟩, 10⟩ : SignedUpdate), ⟨⟨1, 2, 3⟩, 11⟩, ⟨⟨1, 3, 4⟩, 12⟩].map
        (fun u => u.update.previous_root) = [1, 2, 3] :=
  contract_watcher_forward_walk.2.2 1 ⟨⟨1, 1, 2⟩, 10⟩ ⟨⟨1, 2, 3⟩, 11⟩ ⟨⟨1, 3, 4⟩, 12⟩
    rfl rfl rfl

/-- C6. Backward walk termination: the spawned HistorySync task
completes normally (`Ok(())`) when its adapter answers `None` for the
current root, and when it emits an update whose `previous_root` is the
zero root (that update still being sent downstream); every prior
`Some(update)` step sends the update and sets `committed_root` to its
`previous_root`, the loop then continuing from there. -/
theorem history_sync_backward_termination :
    (∀ (root : Nat) (rest : List AdapterResp),
      history_sync_spawn root (.ok none :: rest) = some (.ok ())) ∧
    (∀ (root : Nat) (u : SignedUpdate) (rest : List AdapterResp),
      u.update.previous_root = 0 →
      history_sync_spawn root (.ok (some u) :: rest) = some (.ok ()) ∧
      (history_sync_run root (.ok (some u) :: rest)).2.2 = [u]) ∧
    (∀ (root : Nat) (u : SignedUpdate),
      u.update.previous_root ≠ 0 →
      update_history root (.ok (some u)) = (.ok (), u.update.previous_root, [u])) ∧
    (∀ (root : Nat) (u : SignedUpdate) (rest : List AdapterResp),
      u.update.previous_root ≠ 0 →
      history_sync_spawn root (.ok (some u) :: rest) =
        history_sync_spawn u.update.previous_root rest) := by
  refine ⟨?_, ?_, ?_, ?_⟩
  · intro root rest
    rfl
  · intro root u rest h
    constructor <;> simp [history_sync_spawn, history_sync_run, update_history, h]
  · intro root u h
    simp [update_history, h]
  · intro root u rest h
    simp [history_sync_spawn, history_sync_run, update_history, h]

/-- Witness for C6 at concrete inputs: the step `3 → (0 → 3)` sends the
update and terminates the task normally, and a non-zero step `3 → (2 →
3)` sends and rebases the walk at `2`. -/
theorem history_sync_backward_termination_witness :
    (history_sync_spawn 3 [.ok (some ⟨⟨1, 0, 3⟩, 10⟩)] = some (.ok ()) ∧
      (history_sync_run 3 [.ok (some ⟨⟨1, 0, 3⟩, 10⟩)]).2.2 = [⟨⟨1, 0, 3⟩, 10⟩]) ∧
    update_history 3 (.ok (some ⟨⟨1, 2, 3⟩, 11⟩)) = (.ok (), 2, [⟨⟨1, 2, 3⟩, 11⟩]) ∧
    history_sync_spawn 3 [.ok (some ⟨⟨1, 2, 3⟩, 11⟩), .ok none] =
      history_sync_spawn 2 [.ok none] :=
  ⟨history_sync_backward_termination.2.1 3 ⟨⟨1, 0, 3⟩, 10⟩ [] rfl,
    history_sync_backward_termination.2.2.1 3 ⟨⟨1, 2, 3⟩, 11⟩ (by decide),
    history_sync_backward_termination.2.2.2 3 ⟨⟨1, 2, 3⟩, 11⟩ [.ok none] (by decide)⟩

/-- C4 counterexample: a HistorySync whose adapter call returns a
`ChainError` records the propagated error, yet the spawned task breaks
its loop and completes with `Ok(())` — a successful result, not an error
bubbling to the supervisor. -/
theorem history_sync_chain_error_swallowed_counterexample :
    history_sync_spawn 5 [.error ()] = some (.ok ()) ∧
    (history_sync_run 5 [.error ()]).1 = some .chainErr :=
  ⟨rfl, rfl⟩

/-- C4 (amended). A `ChainError` from `signed_update_by_old_root`
terminates the spawned ContractWatcher task with an error result that
bubbles to the supervisor, at whichever poll step it occurs; but a
`ChainError` from `signed_update_by_new_root` merely breaks the
HistorySync loop, whose task then completes successfully with `Ok(())`. -/
theorem poller_chain_error_propagation_amended :
    (∀ (root : Nat) (rest : List AdapterResp),
      contract_watcher_spawn root (.error () :: rest) = some (.error ())) ∧
    (∀ (root : Nat) (u : SignedUpdate) (rest : List AdapterResp),
      contract_watcher_spawn root (.ok (some u) :: rest) =
        contract_watcher_spawn u.update.new_root rest) ∧
    (∀ (root : Nat) (rest : List AdapterResp),
      contract_watcher_spawn root (.ok none :: rest) =
        contract_watcher_spawn root rest) ∧
    (∀ (root : Nat) (rest : List AdapterResp),
      history_sync_spawn root (.error () :: rest) = some (.ok ())) := by
  refine ⟨fun root rest => rfl, ?_, fun root rest => rfl, fun root rest => rfl⟩
  intro root u rest
  rfl

/-- C8. The Ethereum adapter's lookups block-with-retry rather than
report absence: each lookup either propagates a store error, or returns
`Ok(Some(u))` once a database read yields a matching update after any
number of empty reads; no sequence of reads ever makes either lookup
return `Ok(None)`. -/
theorem eth_adapter_lookups_block_with_retry :
    (∀ (reads : List DbRead),
      eth_signed_update_by_old_root reads ≠ some (.ok none)) ∧
    (∀ (e : Unit) (rest : List DbRead),
      eth_signed_update_by_old_root (.error e :: rest) = some (.error e)) ∧
    (∀ (n : Nat) (u : SignedUpdate) (rest : List DbRead),
      eth_signed_update_by_old_root
        (List.replicate n (.ok none) ++ .ok (some u) :: rest) = some (.ok (some u))) ∧
    (∀ (reads : List DbRead),
      eth_signed_update_by_new_root reads ≠ some (.ok none)) ∧
    (∀ (e : Unit) (rest : List DbRead),
      eth_signed_update_by_new_root (.error e :: rest) = some (.error e)) ∧
    (∀ (n : Nat) (u : SignedUpdate) (rest : List DbRead),
      eth_signed_update_by_new_root
        (List.replicate n (.ok none) ++ .ok (some u) :: rest) = some (.ok (some u))) := by
  refine ⟨?_, fun e rest => rfl, ?_, ?_, fun e rest => rfl, ?_⟩
  · intro reads
    induction reads with
    | nil => simp [eth_signed_update_by_old_root]
    | cons read rest ih =>
      cases read with
      | error e => simp [eth_signed_update_by_old_root]
      | ok o =>
        cases o with
        | none => simpa [eth_signed_update_by_old_root] using ih
        | some u => simp [eth_signed_update_by_old_root]
  · intro n u rest
    induction n with
    | zero => rfl
    | succ n ih => simpa [List.replicate_succ, eth_signed_update_by_old_root] using ih
  · intro reads
    induction reads with
    | nil => simp [eth_signed_update_by_new_root]
    | cons read rest ih =>
      cases read with
      | error e => simp [eth_signed_update_by_new_root]
      | ok o =>
        cases o with
        | none => simpa [eth_signed_update_by_new_root] using ih
        | some u => simp [eth_signed_update_by_new_root]
  · intro n u rest
    induction n with
    | zero => rfl
    | succ n ih => simpa [List.replicate_succ, eth_signed_update_by_new_root] using ih

/-- Witness for C8 at concrete inputs: one empty read followed by a
populated read yields that update, and a store error on the first read
is propagated. -/
theorem eth_adapter_lookups_block_with_retry_witness :
    eth_signed_update_by_old_root [.ok none, .ok (some ⟨⟨1, 5, 6⟩, 10⟩)] =
      some (.ok (some ⟨⟨1, 5, 6⟩, 10⟩)) ∧
    eth_signed_update_by_new_root [.error ()] = some (.error ()) :=
  ⟨eth_adapter_lookups_block_with_retry.2.2.1 1 ⟨⟨1, 5, 6⟩, 10⟩ [],
    eth_adapter_lookups_block_with_retry.2.2.2.2.1 () []⟩

/-- C2 counterexample: with one replica yielding outcome `{txid 1}` and
the home yielding `{txid 2}` (and no connection managers), the returned
vector is `[replica_result, home_result]` — the home's `double_update`
outcome comes LAST in the double-update group, not first as claimed. -/
theorem handle_failure_order_counterexample :
    (handle_failure ⟨[.ok ⟨1, true⟩], .ok ⟨2, true⟩, 7, .ok 3,
        fun fn => .ok ⟨fn, 0⟩, []⟩).results =
      some [.ok ⟨1, true⟩, .ok ⟨2, true⟩] ∧
    (handle_failure ⟨[.ok ⟨1, true⟩], .ok ⟨2, true⟩, 7, .ok 3,
        fun fn => .ok ⟨fn, 0⟩, []⟩).results ≠
      some [.ok ⟨2, true⟩, .ok ⟨1, true⟩] := by
  refine ⟨rfl, ?_⟩
  intro h
  simp [handle_failure] at h

/-- C2 (amended). For `N` replicas, one home and `M` connection
managers, `handle_failure` awaits exactly `N + 1` `double_update` calls
and exactly `M` `unenroll_replica` calls, each of the latter with the
signed failure notification; no individual call's failure prevents any
other call (the result values are arbitrary and the fan-out shape does
not depend on them); and the returned vector has length `N + 1 + M` in
the order `[replica_results…, home_result, unenroll_results…]` — the
home's `double_update` outcome closing the double-update group, not
opening it. -/
theorem handle_failure_fanout_amended :
    ∀ (env : FanoutEnv) (updater : Nat) (sf : SignedFailureNotification),
      env.updater_res = .ok updater →
      env.sign_res ⟨env.local_domain, updater⟩ = .ok sf →
      handle_failure env =
        ⟨some ((env.replica_double_update ++ [env.home_double_update]) ++
            env.unenroll_replica.map (fun m => m sf)),
          env.replica_double_update.length + 1,
          List.replicate env.unenroll_replica.length sf⟩ ∧
      ∀ (results : List TxResult), (handle_failure env).results = some results →
        results.length =
          env.replica_double_update.length + 1 + env.unenroll_replica.length := by
  intro env updater sf hu hs
  have hrun : handle_failure env =
      ⟨some ((env.replica_double_update ++ [env.home_double_update]) ++
          env.unenroll_replica.map (fun m => m sf)),
        env.replica_double_update.length + 1,
        List.replicate env.unenroll_replica.length sf⟩ := by
    simp [handle_failure, hu, hs]
  refine ⟨hrun, ?_⟩
  intro results hres
  rw [hrun] at hres
  have : results = (env.replica_double_update ++ [env.home_double_update]) ++
      env.unenroll_replica.map (fun m => m sf) := by
    exact (Option.some.injEq _ _ ▸ hres).symm
  subst this
  simp [List.length_append, List.length_map]
  omega

/-- Witness for C2 (amended) at concrete inputs: two replicas (one of
whose calls fails), one home and one connection manager produce the
four-element vector `[replica₁, replica₂, home, unenroll]` with three
double-update submissions and one unenroll call carrying the signed
notification. -/
theorem handle_failure_fanout_amended_witness :
    handle_failure ⟨[.ok ⟨1, true⟩, .error ()], .ok ⟨2, true⟩, 7, .ok 3,
        fun fn => .ok ⟨fn, 9⟩, [fun sf => .ok ⟨sf.signature, true⟩]⟩ =
      ⟨some [.ok ⟨1, true⟩, .error (), .ok ⟨2, true⟩, .ok ⟨9, true⟩], 3,
        [⟨⟨7, 3⟩, 9⟩]⟩ :=
  (handle_failure_fanout_amended
    ⟨[.ok ⟨1, true⟩, .error ()], .ok ⟨2, true⟩, 7, .ok 3,
      fun fn => .ok ⟨fn, 9⟩, [fun sf => .ok ⟨sf.signature, true⟩]⟩
    3 ⟨⟨7, 3⟩, 9⟩ rfl rfl).1

/-- C10. When `home.updater()` errs during `handle_failure` — or when
signing the `FailureNotification` errs — the call panics via
`.unwrap()` / `.expect("!sign")`: no result vector is returned and no
`unenroll_replica` call is awaited or reported. -/
theorem handle_failure_panics_on_updater_error :
    (∀ (env : FanoutEnv), env.updater_res = .error () →
      handle_failure env = ⟨none, 0, []⟩) ∧
    (∀ (env : FanoutEnv) (updater : Nat), env.updater_res = .ok updater →
      env.sign_res ⟨env.local_domain, updater⟩ = .error () →
      handle_failure env = ⟨none, 0, []⟩) := by
  constructor
  · intro env h
    simp [handle_failure, h]
  · intro env updater h hs
    simp [handle_failure, h, hs]

/-- Witness for C10 at concrete inputs: with a failing `updater()` call,
`handle_failure` produces no vector, no double-update submission and no
unenroll call even though a connection manager is configured. -/
theorem handle_failure_panics_on_updater_error_witness :
    handle_failure ⟨[.ok ⟨1, true⟩], .ok ⟨2, true⟩, 7, .error (),
        fun fn => .ok ⟨fn, 9⟩, [fun _ => .ok ⟨0, true⟩]⟩ = ⟨none, 0, []⟩ :=
  handle_failure_panics_on_updater_error.1
    ⟨[.ok ⟨1, true⟩], .ok ⟨2, true⟩, 7, .error (),
      fun fn => .ok ⟨fn, 9⟩, [fun _ => .ok ⟨0, true⟩]⟩ rfl

end Optics
